import Mathlib

/-!
Verification of the control-loop core of the BeamNG → ESPHome fan controller.

The embedding models, from the Python sources:
  * `Config` and its runtime update (`config.py`, `web_server.py`);
  * the speed → fan-speed mapper `calculateFanSpeed`
    (`beamng_monitor.py`, `_calculate_fan_speed`);
  * the rate compensator `applyRateCompensation`
    (`beamng_monitor.py`, `_apply_rate_compensation`);
  * the command rate limiter (`beamng_monitor.py`, lines 83-88 of `start`);
  * the per-sample loop body `processSample` (`beamng_monitor.py`, `start`);
  * the web handlers `toggle_system` and `force_stop` (`web_server.py`).

Machine reals (Python floats) are modelled as exact rationals; Python's
`round` (banker's rounding, half to even) is modelled by `pythonRound`;
`time.time()` is a rational number of seconds and `time.time_ns()` an
integer number of nanoseconds, both supplied explicitly per sample.
-/

/-- Python's built-in `round` to an integer: round half to even. -/
def pythonRound (q : ℚ) : ℤ :=
  if q - ⌊q⌋ < 1/2 then ⌊q⌋
  else if 1/2 < q - ⌊q⌋ then ⌊q⌋ + 1
  else if ⌊q⌋ % 2 = 0 then ⌊q⌋ else ⌊q⌋ + 1

/-- Runtime configuration, from the class attributes of `Config` in
`config.py` (field names follow the source). -/
structure Config where
  MIN_SPEED_KMH : ℚ
  MAX_SPEED_KMH : ℚ
  MIN_FAN_SPEED : ℤ
  MAX_FAN_SPEED : ℤ
  COOLDOWN_MS : ℤ
  RATE_COMPENSATION : ℤ
  RATE_SMOOTHING : ℤ
  ENABLED : Bool
  ESP_IP : String
  FAN_ENTITY : String
deriving DecidableEq

/-- The default values of `Config` in `config.py`. -/
def defaultConfig : Config :=
  ⟨0, 300, 0, 100, 300, 0, 3, true, "192.168.99.100", "fan"⟩

/-- A partial configuration update: the JSON dictionary accepted by
`Config.update_from_dict` in `config.py`; `none` marks an absent key. -/
structure ConfigUpdate where
  MIN_SPEED_KMH : Option ℚ
  MAX_SPEED_KMH : Option ℚ
  MIN_FAN_SPEED : Option ℤ
  MAX_FAN_SPEED : Option ℤ
  COOLDOWN_MS : Option ℤ
  RATE_COMPENSATION : Option ℤ
  RATE_SMOOTHING : Option ℤ
  ENABLED : Option Bool
  ESP_IP : Option String
  FAN_ENTITY : Option String
deriving DecidableEq

/-- `Config.update_from_dict` (`config.py`, lines 57-69): every provided
field overwrites the current value; absent keys keep the current value.
The source performs no validation of any kind. -/
def Config.update_from_dict (cfg : Config) (data : ConfigUpdate) : Config :=
  ⟨data.MIN_SPEED_KMH.getD cfg.MIN_SPEED_KMH,
   data.MAX_SPEED_KMH.getD cfg.MAX_SPEED_KMH,
   data.MIN_FAN_SPEED.getD cfg.MIN_FAN_SPEED,
   data.MAX_FAN_SPEED.getD cfg.MAX_FAN_SPEED,
   data.COOLDOWN_MS.getD cfg.COOLDOWN_MS,
   data.RATE_COMPENSATION.getD cfg.RATE_COMPENSATION,
   data.RATE_SMOOTHING.getD cfg.RATE_SMOOTHING,
   data.ENABLED.getD cfg.ENABLED,
   data.ESP_IP.getD cfg.ESP_IP,
   data.FAN_ENTITY.getD cfg.FAN_ENTITY⟩

/-- `WebServer.update_config` (`web_server.py`, lines 57-65): applies
`Config.update_from_dict` and answers success together with the new
configuration.  For a well-formed JSON body no exception is raised, so the
handler always reports success. -/
def WebServer.update_config (cfg : Config) (data : ConfigUpdate) : Bool × Config :=
  (true, cfg.update_from_dict data)

/-- Limiter state, from `BeamNGMonitor.__init__`: the last dispatched value
and the `command_cooldown` deadline in nanoseconds. -/
structure LimiterState where
  previous_fan_speed : ℤ
  command_cooldown : ℤ
deriving DecidableEq

/-- One evaluation of the dispatch guard in `BeamNGMonitor.start`
(`beamng_monitor.py`, lines 83-88): a command is sent iff the candidate
value differs from `previous_fan_speed` and `command_cooldown` is strictly
below the current `time.time_ns()`; on dispatch the state records the value
and the deadline `now_ns + COOLDOWN_MS * 1_000_000`. -/
def limiterStep (cooldown_ms : ℤ) (st : LimiterState) (fan_speed : ℤ)
    (now_ns : ℤ) : LimiterState × Option ℤ :=
  if fan_speed ≠ st.previous_fan_speed ∧ st.command_cooldown < now_ns then
    (⟨fan_speed, now_ns + cooldown_ms * 1000000⟩, some fan_speed)
  else (st, none)

/-- The limiter iterated over a list of `(fan_speed, now_ns)` samples,
returning the list of dispatched `(value, time)` pairs. -/
def runLimiter (cooldown_ms : ℤ) (st : LimiterState) :
    List (ℤ × ℤ) → List (ℤ × ℤ)
  | [] => []
  | s :: rest =>
    let r := limiterStep cooldown_ms st s.1 s.2
    (match r.2 with
     | some v => [(v, s.2)]
     | none => []) ++ runLimiter cooldown_ms r.1 rest

/-- `BeamNGMonitor._calculate_fan_speed` (`beamng_monitor.py`,
lines 114-133): clamped linear interpolation from the speed domain to the
fan range. -/
def calculateFanSpeed (cfg : Config) (speed : ℚ) : ℤ :=
  if speed ≤ cfg.MIN_SPEED_KMH then cfg.MIN_FAN_SPEED
  else if cfg.MAX_SPEED_KMH ≤ speed then cfg.MAX_FAN_SPEED
  else
    cfg.MIN_FAN_SPEED +
      pythonRound ((speed - cfg.MIN_SPEED_KMH) /
          (cfg.MAX_SPEED_KMH - cfg.MIN_SPEED_KMH) *
        ((cfg.MAX_FAN_SPEED - cfg.MIN_FAN_SPEED : ℤ) : ℚ))

/-- Compensator state, from `BeamNGMonitor.__init__`: `previous_speed`
(last smoothed speed), `previous_time` (seconds), and the rolling
`speed_history` buffer. -/
structure CompState where
  previous_speed : ℚ
  previous_time : ℚ
  speed_history : List ℚ
deriving DecidableEq

/-- The history update of `_apply_rate_compensation` (`beamng_monitor.py`,
lines 159-161): append the current speed, then pop the oldest entry once if
the length exceeds `RATE_SMOOTHING`. -/
def updatedHistory (smoothing : ℤ) (hist : List ℚ) (current_speed : ℚ) :
    List ℚ :=
  let h := hist ++ [current_speed]
  if smoothing < (h.length : ℤ) then h.tail else h

/-- The smoothing step of `_apply_rate_compensation` (lines 164-167):
arithmetic mean of the history when it holds at least two samples, else the
raw current speed. -/
def smoothedSpeed (current_speed : ℚ) (hist : List ℚ) : ℚ :=
  if 2 ≤ hist.length then hist.sum / (hist.length : ℚ) else current_speed

/-- The smart deviation clamp of `_apply_rate_compensation` (lines
184-188): keep `x` within `max 30 (base * 0.5)` of the base fan speed. -/
def deviationClamp (base_fan_speed : ℤ) (x : ℚ) : ℚ :=
  max ((base_fan_speed : ℚ) - max 30 ((base_fan_speed : ℚ) * (1/2)))
    (min ((base_fan_speed : ℚ) + max 30 ((base_fan_speed : ℚ) * (1/2))) x)

/-- The compensated value of `_apply_rate_compensation` just before the
final range clamp and rounding (lines 158-188): the base fan speed plus the
derivative term, after the deviation clamp. -/
def preFinalCompensated (cfg : Config) (st : CompState) (now current_speed : ℚ)
    (base_fan_speed : ℤ) : ℚ :=
  let hist := updatedHistory cfg.RATE_SMOOTHING st.speed_history current_speed
  let sm := smoothedSpeed current_speed hist
  let rate := (sm - st.previous_speed) / (now - st.previous_time)
  let derivative := rate * (cfg.RATE_COMPENSATION : ℚ) / 50
  deviationClamp base_fan_speed ((base_fan_speed : ℚ) + derivative)

/-- `BeamNGMonitor._apply_rate_compensation` (`beamng_monitor.py`, lines
135-196): returns the adjusted fan speed, the actually applied compensation
and the new compensator state.  When less than 10 ms elapsed since the
previous computation it returns the base fan speed with no compensation and
leaves the state untouched. -/
def applyRateCompensation (cfg : Config) (st : CompState)
    (now current_speed : ℚ) (base_fan_speed : ℤ) : ℤ × ℤ × CompState :=
  if now - st.previous_time < 1/100 then (base_fan_speed, 0, st)
  else
    let hist := updatedHistory cfg.RATE_SMOOTHING st.speed_history current_speed
    let sm := smoothedSpeed current_speed hist
    let final := max cfg.MIN_FAN_SPEED (min cfg.MAX_FAN_SPEED
      (pythonRound (preFinalCompensated cfg st now current_speed base_fan_speed)))
    (final, final - base_fan_speed, ⟨sm, now, hist⟩)

/-- The compensation selection of the loop body (`beamng_monitor.py`, lines
67-72): `_apply_rate_compensation` runs only when `RATE_COMPENSATION > 0`;
otherwise the base fan speed passes through with compensation 0 and the
compensator state untouched. -/
def compensationStage (cfg : Config) (st : CompState)
    (now current_speed : ℚ) (base_fan_speed : ℤ) : ℤ × ℤ × CompState :=
  if 0 < cfg.RATE_COMPENSATION then
    applyRateCompensation cfg st now current_speed base_fan_speed
  else (base_fan_speed, 0, st)

/-- Monitor state: compensator state plus limiter state. -/
structure MonitorState where
  comp : CompState
  limiter : LimiterState
deriving DecidableEq

/-- Result of one iteration of the loop body: the new monitor state, the
optionally dispatched command, and the values passed to
`LiveData.update`. -/
structure StepResult where
  state : MonitorState
  dispatched : Option ℤ
  live_speed : ℚ
  live_fan : ℤ
  live_comp : ℤ
deriving DecidableEq

/-- The per-sample body of `BeamNGMonitor.start` (`beamng_monitor.py`,
lines 62-88): map the speed, optionally apply rate compensation, force fan
speed and compensation to 0 when the system is disabled, publish the live
snapshot, then run the dispatch guard. -/
def processSample (cfg : Config) (mst : MonitorState)
    (now_s : ℚ) (now_ns : ℤ) (speed : ℚ) : StepResult :=
  let base := calculateFanSpeed cfg speed
  let c := compensationStage cfg mst.comp now_s speed base
  let fan := if cfg.ENABLED then c.1 else 0
  let comp := if cfg.ENABLED then c.2.1 else 0
  let l := limiterStep cfg.COOLDOWN_MS mst.limiter fan now_ns
  ⟨⟨c.2.2, l.1⟩, l.2, speed, fan, comp⟩

/-- `WebServer.toggle_system` (`web_server.py`, lines 67-81): flip
`ENABLED`; when the system becomes disabled, immediately issue
`control_fan(0)` to the device — directly, not through the monitor loop's
dispatch guard.  Returns the new configuration and the directly issued
commands. -/
def toggle_system (cfg : Config) : Config × List ℤ :=
  let cfg2 : Config :=
    ⟨cfg.MIN_SPEED_KMH, cfg.MAX_SPEED_KMH, cfg.MIN_FAN_SPEED,
     cfg.MAX_FAN_SPEED, cfg.COOLDOWN_MS, cfg.RATE_COMPENSATION,
     cfg.RATE_SMOOTHING, !cfg.ENABLED, cfg.ESP_IP, cfg.FAN_ENTITY⟩
  (cfg2, if cfg2.ENABLED then [] else [0])

/-- `WebServer.force_stop` (`web_server.py`, lines 83-90): immediately
issue `control_fan(0)` to the device.  The monitor's limiter state is
neither consulted nor modified. -/
def force_stop (st : LimiterState) : LimiterState × List ℤ :=
  (st, [0])

/-! Helper lemmas, shared across the development. -/

lemma le_pythonRound (q : ℚ) : ⌊q⌋ ≤ pythonRound q := by
  unfold pythonRound
  split_ifs <;> omega

lemma pythonRound_le (q : ℚ) : pythonRound q ≤ ⌊q⌋ + 1 := by
  unfold pythonRound
  split_ifs <;> omega

lemma pythonRound_intCast (n : ℤ) : pythonRound (n : ℚ) = n := by
  unfold pythonRound
  rw [Int.floor_intCast]
  norm_num

lemma pythonRound_mono {a b : ℚ} (hab : a ≤ b) :
    pythonRound a ≤ pythonRound b := by
  have hf : ⌊a⌋ ≤ ⌊b⌋ := Int.floor_mono hab
  rcases eq_or_lt_of_le hf with heq | hlt
  · unfold pythonRound
    rw [← heq]
    have hfa : (⌊a⌋ : ℚ) ≤ a := Int.floor_le a
    split_ifs <;> first | omega | linarith
  · calc pythonRound a ≤ ⌊a⌋ + 1 := pythonRound_le a
      _ ≤ ⌊b⌋ := by omega
      _ ≤ pythonRound b := le_pythonRound b

lemma calculateFanSpeed_low (cfg : Config) {s : ℚ}
    (h : s ≤ cfg.MIN_SPEED_KMH) :
    calculateFanSpeed cfg s = cfg.MIN_FAN_SPEED := by
  simp [calculateFanSpeed, h]

lemma calculateFanSpeed_high (cfg : Config) {s : ℚ}
    (h1 : ¬ s ≤ cfg.MIN_SPEED_KMH) (h2 : cfg.MAX_SPEED_KMH ≤ s) :
    calculateFanSpeed cfg s = cfg.MAX_FAN_SPEED := by
  simp [calculateFanSpeed, h1, h2]

lemma calculateFanSpeed_mid (cfg : Config) {s : ℚ}
    (h1 : ¬ s ≤ cfg.MIN_SPEED_KMH) (h2 : ¬ cfg.MAX_SPEED_KMH ≤ s) :
    calculateFanSpeed cfg s = cfg.MIN_FAN_SPEED +
      pythonRound ((s - cfg.MIN_SPEED_KMH) /
          (cfg.MAX_SPEED_KMH - cfg.MIN_SPEED_KMH) *
        ((cfg.MAX_FAN_SPEED - cfg.MIN_FAN_SPEED : ℤ) : ℚ)) := by
  simp [calculateFanSpeed, h1, h2]

lemma interp_bounds (cfg : Config) {s : ℚ}
    (h1 : cfg.MIN_SPEED_KMH < s) (h2 : s < cfg.MAX_SPEED_KMH)
    (hfan : cfg.MIN_FAN_SPEED ≤ cfg.MAX_FAN_SPEED) :
    0 ≤ (s - cfg.MIN_SPEED_KMH) / (cfg.MAX_SPEED_KMH - cfg.MIN_SPEED_KMH) *
        ((cfg.MAX_FAN_SPEED - cfg.MIN_FAN_SPEED : ℤ) : ℚ) ∧
      (s - cfg.MIN_SPEED_KMH) / (cfg.MAX_SPEED_KMH - cfg.MIN_SPEED_KMH) *
        ((cfg.MAX_FAN_SPEED - cfg.MIN_FAN_SPEED : ℤ) : ℚ) ≤
        ((cfg.MAX_FAN_SPEED - cfg.MIN_FAN_SPEED : ℤ) : ℚ) := by
  have hden : 0 < cfg.MAX_SPEED_KMH - cfg.MIN_SPEED_KMH := by linarith
  have hF : (0 : ℚ) ≤ ((cfg.MAX_FAN_SPEED - cfg.MIN_FAN_SPEED : ℤ) : ℚ) := by
    exact_mod_cast sub_nonneg.mpr hfan
  have ht0 : 0 ≤ (s - cfg.MIN_SPEED_KMH) / (cfg.MAX_SPEED_KMH - cfg.MIN_SPEED_KMH) :=
    le_of_lt (div_pos (by linarith) hden)
  have ht1 : (s - cfg.MIN_SPEED_KMH) / (cfg.MAX_SPEED_KMH - cfg.MIN_SPEED_KMH) ≤ 1 :=
    le_of_lt ((div_lt_one hden).mpr (by linarith))
  constructor
  · exact mul_nonneg ht0 hF
  · calc (s - cfg.MIN_SPEED_KMH) / (cfg.MAX_SPEED_KMH - cfg.MIN_SPEED_KMH) *
        ((cfg.MAX_FAN_SPEED - cfg.MIN_FAN_SPEED : ℤ) : ℚ) ≤
        1 * ((cfg.MAX_FAN_SPEED - cfg.MIN_FAN_SPEED : ℤ) : ℚ) :=
        mul_le_mul_of_nonneg_right ht1 hF
      _ = _ := one_mul _

lemma calculateFanSpeed_range (cfg : Config)
    (hfan : cfg.MIN_FAN_SPEED ≤ cfg.MAX_FAN_SPEED) (s : ℚ) :
    cfg.MIN_FAN_SPEED ≤ calculateFanSpeed cfg s ∧
      calculateFanSpeed cfg s ≤ cfg.MAX_FAN_SPEED := by
  by_cases h1 : s ≤ cfg.MIN_SPEED_KMH
  · rw [calculateFanSpeed_low cfg h1]
    exact ⟨le_refl _, hfan⟩
  by_cases h2 : cfg.MAX_SPEED_KMH ≤ s
  · rw [calculateFanSpeed_high cfg h1 h2]
    exact ⟨hfan, le_refl _⟩
  rw [calculateFanSpeed_mid cfg h1 h2]
  push_neg at h1 h2
  obtain ⟨hx1, hx2⟩ := interp_bounds cfg h1 h2 hfan
  have hlo : (0 : ℤ) ≤ pythonRound ((s - cfg.MIN_SPEED_KMH) /
      (cfg.MAX_SPEED_KMH - cfg.MIN_SPEED_KMH) *
      ((cfg.MAX_FAN_SPEED - cfg.MIN_FAN_SPEED : ℤ) : ℚ)) := by
    have := pythonRound_mono (a := ((0 : ℤ) : ℚ)) (by exact_mod_cast hx1)
    rwa [pythonRound_intCast] at this
  have hhi : pythonRound ((s - cfg.MIN_SPEED_KMH) /
      (cfg.MAX_SPEED_KMH - cfg.MIN_SPEED_KMH) *
      ((cfg.MAX_FAN_SPEED - cfg.MIN_FAN_SPEED : ℤ) : ℚ)) ≤
      cfg.MAX_FAN_SPEED - cfg.MIN_FAN_SPEED := by
    have := pythonRound_mono (b := ((cfg.MAX_FAN_SPEED - cfg.MIN_FAN_SPEED : ℤ) : ℚ)) hx2
    rwa [pythonRound_intCast] at this
  omega

lemma calculateFanSpeed_mono (cfg : Config)
    (hfan : cfg.MIN_FAN_SPEED ≤ cfg.MAX_FAN_SPEED) {s1 s2 : ℚ}
    (h12 : s1 ≤ s2) :
    calculateFanSpeed cfg s1 ≤ calculateFanSpeed cfg s2 := by
  by_cases a1 : s1 ≤ cfg.MIN_SPEED_KMH
  · rw [calculateFanSpeed_low cfg a1]
    exact (calculateFanSpeed_range cfg hfan s2).1
  have a2 : ¬ s2 ≤ cfg.MIN_SPEED_KMH := fun h => a1 (le_trans h12 h)
  by_cases b2 : cfg.MAX_SPEED_KMH ≤ s2
  · rw [calculateFanSpeed_high cfg a2 b2]
    exact (calculateFanSpeed_range cfg hfan s1).2
  have b1 : ¬ cfg.MAX_SPEED_KMH ≤ s1 := fun h => b2 (le_trans h h12)
  rw [calculateFanSpeed_mid cfg a1 b1, calculateFanSpeed_mid cfg a2 b2]
  push_neg at a1 b1
  have hden : 0 < cfg.MAX_SPEED_KMH - cfg.MIN_SPEED_KMH := by linarith
  have hF : (0 : ℚ) ≤ ((cfg.MAX_FAN_SPEED - cfg.MIN_FAN_SPEED : ℤ) : ℚ) := by
    exact_mod_cast sub_nonneg.mpr hfan
  have hmul : (s1 - cfg.MIN_SPEED_KMH) / (cfg.MAX_SPEED_KMH - cfg.MIN_SPEED_KMH) *
      ((cfg.MAX_FAN_SPEED - cfg.MIN_FAN_SPEED : ℤ) : ℚ) ≤
      (s2 - cfg.MIN_SPEED_KMH) / (cfg.MAX_SPEED_KMH - cfg.MIN_SPEED_KMH) *
      ((cfg.MAX_FAN_SPEED - cfg.MIN_FAN_SPEED : ℤ) : ℚ) := by
    apply mul_le_mul_of_nonneg_right _ hF
    exact (div_le_div_iff_of_pos_right hden).mpr (by linarith)
  exact add_le_add_left (pythonRound_mono hmul) _

lemma runLimiter_cons_pos (c : ℤ) (st : LimiterState) {f t : ℤ}
    (rest : List (ℤ × ℤ))
    (h : f ≠ st.previous_fan_speed ∧ st.command_cooldown < t) :
    runLimiter c st ((f, t) :: rest) =
      (f, t) :: runLimiter c ⟨f, t + c * 1000000⟩ rest := by
  simp [runLimiter, limiterStep, h]

lemma runLimiter_cons_neg (c : ℤ) (st : LimiterState) {f t : ℤ}
    (rest : List (ℤ × ℤ))
    (h : ¬ (f ≠ st.previous_fan_speed ∧ st.command_cooldown < t)) :
    runLimiter c st ((f, t) :: rest) = runLimiter c st rest := by
  simp [runLimiter, limiterStep, h]

lemma runLimiter_chain (c : ℤ) :
    ∀ (samples : List (ℤ × ℤ)) (st : LimiterState),
      List.Chain' (fun d1 d2 : ℤ × ℤ =>
        d2.1 ≠ d1.1 ∧ d1.2 + c * 1000000 < d2.2) (runLimiter c st samples) ∧
      (∀ d : ℤ × ℤ, (runLimiter c st samples).head? = some d →
        d.1 ≠ st.previous_fan_speed ∧ st.command_cooldown < d.2) := by
  intro samples
  induction samples with
  | nil => intro st; simp [runLimiter]
  | cons s rest ih =>
    intro st
    by_cases h : s.1 ≠ st.previous_fan_speed ∧ st.command_cooldown < s.2
    · obtain ⟨f, t⟩ := s
      rw [runLimiter_cons_pos c st rest h]
      obtain ⟨ihc, ihh⟩ := ih ⟨f, t + c * 1000000⟩
      refine ⟨List.Chain'.cons' ihc ?_, ?_⟩
      · intro y hy
        have := ihh y (by simpa using hy)
        exact ⟨this.1, this.2⟩
      · intro d hd
        simp only [List.head?_cons, Option.some.injEq] at hd
        subst hd
        exact h
    · obtain ⟨f, t⟩ := s
      rw [runLimiter_cons_neg c st rest h]
      exact ih st

lemma chain_rel_head {α : Type} {R : α → α → Prop}
    (tr : ∀ a b d : α, R a b → R b d → R a d) :
    ∀ (xs : List α) (x y : α), List.Chain' R (x :: xs) → y ∈ xs → R x y := by
  intro xs
  induction xs with
  | nil => intro x y _ hy; cases hy
  | cons z zs ih =>
    intro x y h hy
    have hxz : R x z := (List.chain'_cons.mp h).1
    have htl : List.Chain' R (z :: zs) := (List.chain'_cons.mp h).2
    rcases List.mem_cons.mp hy with rfl | hy2
    · exact hxz
    · exact tr _ _ _ hxz (ih z y htl hy2)

lemma chain'_pairwise_of_trans {α : Type} {R : α → α → Prop}
    (tr : ∀ a b d : α, R a b → R b d → R a d) :
    ∀ l : List α, List.Chain' R l → List.Pairwise R l := by
  intro l
  induction l with
  | nil => intro _; exact List.Pairwise.nil
  | cons x xs ih =>
    intro h
    exact List.pairwise_cons.mpr
      ⟨fun y hy => chain_rel_head tr xs x y h hy, ih h.tail⟩

lemma deviationClamp_abs_le (base_fan_speed : ℤ) (x : ℚ) :
    |deviationClamp base_fan_speed x - (base_fan_speed : ℚ)| ≤
      max 30 ((base_fan_speed : ℚ) * (1/2)) := by
  have hd : (0 : ℚ) ≤ max 30 ((base_fan_speed : ℚ) * (1/2)) :=
    le_trans (by norm_num) (le_max_left _ _)
  rw [abs_le]
  unfold deviationClamp
  constructor
  · have := le_max_left
      ((base_fan_speed : ℚ) - max 30 ((base_fan_speed : ℚ) * (1/2)))
      (min ((base_fan_speed : ℚ) + max 30 ((base_fan_speed : ℚ) * (1/2))) x)
    linarith
  · have h1 : min ((base_fan_speed : ℚ) + max 30 ((base_fan_speed : ℚ) * (1/2))) x ≤
        (base_fan_speed : ℚ) + max 30 ((base_fan_speed : ℚ) * (1/2)) :=
      min_le_left _ _
    have h2 := max_le (by linarith :
        (base_fan_speed : ℚ) - max 30 ((base_fan_speed : ℚ) * (1/2)) ≤
        (base_fan_speed : ℚ) + max 30 ((base_fan_speed : ℚ) * (1/2))) h1
    linarith

/-! Claim theorems. -/

/-- Claim C1 (corrected): the rate limiter permits a dispatch iff the
candidate `fan_speed` differs from the stored `previous_fan_speed` AND the
current time is strictly after the `command_cooldown` deadline (the source
compares with `<`, so a sample arriving exactly at the deadline is still
suppressed); on a permitted dispatch the state records the dispatched value
and the deadline `now + COOLDOWN_MS` (in nanoseconds).  With
`cooldown_ms = 300`, after a dispatch of value 50 at t = 0 a value-60
sample at t = 100 ms is suppressed and the same value 60 at t = 310 ms is
dispatched. -/
theorem c1_rate_limiter_strict_inequality (cooldown_ms : ℤ)
    (st : LimiterState) (fan_speed now_ns : ℤ) :
    ((limiterStep cooldown_ms st fan_speed now_ns).2 = some fan_speed ↔
      fan_speed ≠ st.previous_fan_speed ∧ st.command_cooldown < now_ns) ∧
    (fan_speed ≠ st.previous_fan_speed → st.command_cooldown < now_ns →
      limiterStep cooldown_ms st fan_speed now_ns =
        (⟨fan_speed, now_ns + cooldown_ms * 1000000⟩, some fan_speed)) ∧
    (¬ (fan_speed ≠ st.previous_fan_speed ∧ st.command_cooldown < now_ns) →
      limiterStep cooldown_ms st fan_speed now_ns = (st, none)) ∧
    (limiterStep 300 ⟨50, 300000000⟩ 60 100000000).2 = none ∧
    limiterStep 300 ⟨50, 300000000⟩ 60 310000000 =
      (⟨60, 610000000⟩, some 60) := by
  refine ⟨?_, ?_, ?_, ?_, ?_⟩
  · unfold limiterStep
    split_ifs with h
    · simpa using h
    · simpa using h
  · intro h1 h2
    simp [limiterStep, h1, h2]
  · intro h
    simp [limiterStep, h]
  · norm_num [limiterStep]
  · norm_num [limiterStep]

/-- Witness for C1: the permitted-dispatch update at a concrete input. -/
theorem c1_rate_limiter_strict_inequality_witness :
    limiterStep 300 ⟨50, 300000000⟩ 60 310000000 =
      (⟨60, 610000000⟩, some 60) :=
  (c1_rate_limiter_strict_inequality 300 ⟨50, 300000000⟩ 60 310000000).2.1
    (by norm_num) (by norm_num)

/-- Counterexample to C1 as stated: at the exact deadline
(`now = command_cooldown = 300000000 ns`) the candidate value 60 differs
from the stored 50 and the time is "at" the deadline, yet the source
suppresses the dispatch — "at or after" is wrong, the comparison is
strict. -/
theorem c1_boundary_sample_suppressed :
    (60 : ℤ) ≠ 50 ∧ (300000000 : ℤ) ≤ 300000000 ∧
    (limiterStep 300 ⟨50, 300000000⟩ 60 300000000).2 = none := by
  norm_num [limiterStep]

/-- Claim C2 (code bug): a configuration update violating the invariant
(`MIN_SPEED_KMH = 500 ≥ MAX_SPEED_KMH = 300`) is nevertheless accepted by
`update_config`: the handler reports success and the configuration
changes, leaving the invariant violated. -/
theorem c2_update_config_accepts_invalid_bounds :
    (WebServer.update_config defaultConfig
      ⟨some 500, none, none, none, none, none, none, none, none, none⟩).1 = true ∧
    (WebServer.update_config defaultConfig
      ⟨some 500, none, none, none, none, none, none, none, none, none⟩).2.MIN_SPEED_KMH = 500 ∧
    (WebServer.update_config defaultConfig
      ⟨some 500, none, none, none, none, none, none, none, none, none⟩).2.MAX_SPEED_KMH = 300 ∧
    ¬ ((WebServer.update_config defaultConfig
      ⟨some 500, none, none, none, none, none, none, none, none, none⟩).2.MIN_SPEED_KMH <
      (WebServer.update_config defaultConfig
        ⟨some 500, none, none, none, none, none, none, none, none, none⟩).2.MAX_SPEED_KMH) := by
  norm_num [WebServer.update_config, Config.update_from_dict, defaultConfig]

/-- Claim C3 (corrected): when the system is administratively disabled the
monitor loop forces the fan-speed value fed to the limiter to 0 and the
compensation to 0, and the loop-side command still goes through the
limiter dispatch guard; however, the disable toggle and `force_stop`
additionally issue an immediate `control_fan(0)` device command that does
not pass through the limiter. -/
theorem c3_disabled_target_zero_via_limiter (cfg : Config)
    (mst : MonitorState) (now_s : ℚ) (now_ns : ℤ) (speed : ℚ)
    (hdis : cfg.ENABLED = false) :
    (processSample cfg mst now_s now_ns speed).live_fan = 0 ∧
    (processSample cfg mst now_s now_ns speed).live_comp = 0 ∧
    (processSample cfg mst now_s now_ns speed).dispatched =
      (limiterStep cfg.COOLDOWN_MS mst.limiter 0 now_ns).2 ∧
    (processSample cfg mst now_s now_ns speed).state.limiter =
      (limiterStep cfg.COOLDOWN_MS mst.limiter 0 now_ns).1 ∧
    (∀ st : LimiterState, force_stop st = (st, [0])) ∧
    (∀ c2 : Config, c2.ENABLED = true →
      (toggle_system c2).2 = [0] ∧ (toggle_system c2).1.ENABLED = false) := by
  refine ⟨?_, ?_, ?_, ?_, fun st => rfl, ?_⟩
  · simp [processSample, hdis]
  · simp [processSample, hdis]
  · simp [processSample, hdis]
  · simp [processSample, hdis]
  · intro c2 h2
    simp [toggle_system, h2]

/-- Witness for C3 at a concrete disabled configuration and state. -/
theorem c3_disabled_target_zero_via_limiter_witness :
    (processSample ⟨0, 300, 0, 100, 300, 0, 3, false, "192.168.99.100", "fan"⟩
      ⟨⟨0, 0, []⟩, ⟨0, 0⟩⟩ 1 5 100).live_fan = 0 ∧
    (processSample ⟨0, 300, 0, 100, 300, 0, 3, false, "192.168.99.100", "fan"⟩
      ⟨⟨0, 0, []⟩, ⟨0, 0⟩⟩ 1 5 100).live_comp = 0 ∧
    (processSample ⟨0, 300, 0, 100, 300, 0, 3, false, "192.168.99.100", "fan"⟩
      ⟨⟨0, 0, []⟩, ⟨0, 0⟩⟩ 1 5 100).dispatched =
      (limiterStep 300 ⟨0, 0⟩ 0 5).2 ∧
    (processSample ⟨0, 300, 0, 100, 300, 0, 3, false, "192.168.99.100", "fan"⟩
      ⟨⟨0, 0, []⟩, ⟨0, 0⟩⟩ 1 5 100).state.limiter = (limiterStep 300 ⟨0, 0⟩ 0 5).1 ∧
    (∀ st : LimiterState, force_stop st = (st, [0])) ∧
    (∀ c2 : Config, c2.ENABLED = true →
      (toggle_system c2).2 = [0] ∧ (toggle_system c2).1.ENABLED = false) :=
  c3_disabled_target_zero_via_limiter
    ⟨0, 300, 0, 100, 300, 0, 3, false, "192.168.99.100", "fan"⟩
    ⟨⟨0, 0, []⟩, ⟨0, 0⟩⟩ 1 5 100 rfl

/-- Counterexample to C3 as stated: with the limiter cooldown pending until
t = 300 ms, `force_stop` at t = 100 ms still issues the command 0 directly
(and does not touch the limiter state), while the limiter itself would have
suppressed a 0-command at that time — so a command toward 0 does bypass the
cooldown spacing. -/
theorem c3_force_stop_bypasses_limiter :
    (force_stop ⟨50, 300000000⟩).2 = [0] ∧
    (force_stop ⟨50, 300000000⟩).1 = ⟨50, 300000000⟩ ∧
    (limiterStep 300 ⟨50, 300000000⟩ 0 100000000).2 = none := by
  norm_num [force_stop, limiterStep]

/-- Claim C4 (confirmed): over any sample sequence, consecutive permitted
dispatches never carry the same value, and any two permitted dispatches are
strictly more than `COOLDOWN_MS` (in nanoseconds) apart, regardless of the
sample arrival times. -/
theorem c4_limiter_no_duplicate_no_flood (cooldown_ms : ℤ)
    (hc : 0 ≤ cooldown_ms) (st : LimiterState) (samples : List (ℤ × ℤ)) :
    List.Chain' (fun d1 d2 : ℤ × ℤ => d1.1 ≠ d2.1)
      (runLimiter cooldown_ms st samples) ∧
    List.Pairwise (fun d1 d2 : ℤ × ℤ => d1.2 + cooldown_ms * 1000000 < d2.2)
      (runLimiter cooldown_ms st samples) := by
  have h := (runLimiter_chain cooldown_ms samples st).1
  constructor
  · exact h.imp (fun a b hab => Ne.symm hab.1)
  · refine chain'_pairwise_of_trans ?_ _ (h.imp (fun a b hab => hab.2))
    intro a b d h1 h2
    have : 0 ≤ cooldown_ms * 1000000 := by positivity
    omega

/-- Witness for C4 on a concrete sample burst: 50 at 1 ns dispatched, 60 at
100 ms suppressed, 60 at 310 ms dispatched. -/
theorem c4_limiter_no_duplicate_no_flood_witness :
    List.Chain' (fun d1 d2 : ℤ × ℤ => d1.1 ≠ d2.1)
      (runLimiter 300 ⟨0, 0⟩ [(50, 1), (60, 100000000), (60, 310000002)]) ∧
    List.Pairwise (fun d1 d2 : ℤ × ℤ => d1.2 + 300 * 1000000 < d2.2)
      (runLimiter 300 ⟨0, 0⟩ [(50, 1), (60, 100000000), (60, 310000002)]) :=
  c4_limiter_no_duplicate_no_flood 300 (by norm_num) ⟨0, 0⟩
    [(50, 1), (60, 100000000), (60, 310000002)]

/-- Claim C5 (confirmed): for every configuration satisfying the invariant
(`MIN_SPEED_KMH < MAX_SPEED_KMH`, `MIN_FAN_SPEED ≤ MAX_FAN_SPEED`):
at or below the minimum speed the mapper returns `MIN_FAN_SPEED`, at or
above the maximum it returns `MAX_FAN_SPEED`, strictly between it returns
`MIN_FAN_SPEED + round(...)` by linear interpolation, and the result is
always an integer in `[MIN_FAN_SPEED, MAX_FAN_SPEED]`.  With the default
configuration, speed 150 maps to 50, speed 0 to 0, speed 300 to 100 and
speed 400 to 100. -/
theorem c5_mapper_piecewise_range (cfg : Config) (speed : ℚ)
    (hspeed : cfg.MIN_SPEED_KMH < cfg.MAX_SPEED_KMH)
    (hfan : cfg.MIN_FAN_SPEED ≤ cfg.MAX_FAN_SPEED) :
    (speed ≤ cfg.MIN_SPEED_KMH →
      calculateFanSpeed cfg speed = cfg.MIN_FAN_SPEED) ∧
    (cfg.MAX_SPEED_KMH ≤ speed →
      calculateFanSpeed cfg speed = cfg.MAX_FAN_SPEED) ∧
    (cfg.MIN_SPEED_KMH < speed → speed < cfg.MAX_SPEED_KMH →
      calculateFanSpeed cfg speed = cfg.MIN_FAN_SPEED +
        pythonRound ((speed - cfg.MIN_SPEED_KMH) /
            (cfg.MAX_SPEED_KMH - cfg.MIN_SPEED_KMH) *
          ((cfg.MAX_FAN_SPEED - cfg.MIN_FAN_SPEED : ℤ) : ℚ))) ∧
    cfg.MIN_FAN_SPEED ≤ calculateFanSpeed cfg speed ∧
    calculateFanSpeed cfg speed ≤ cfg.MAX_FAN_SPEED ∧
    calculateFanSpeed defaultConfig 150 = 50 ∧
    calculateFanSpeed defaultConfig 0 = 0 ∧
    calculateFanSpeed defaultConfig 300 = 100 ∧
    calculateFanSpeed defaultConfig 400 = 100 := by
  refine ⟨fun h => calculateFanSpeed_low cfg h, ?_, ?_,
    (calculateFanSpeed_range cfg hfan speed).1,
    (calculateFanSpeed_range cfg hfan speed).2, ?_, ?_, ?_, ?_⟩
  · intro h
    exact calculateFanSpeed_high cfg (fun h1 => absurd hspeed
      (not_lt.mpr (le_trans h h1))) h
  · intro h1 h2
    exact calculateFanSpeed_mid cfg (not_le.mpr h1) (not_le.mpr h2)
  · norm_num [calculateFanSpeed, defaultConfig, pythonRound]
  · norm_num [calculateFanSpeed, defaultConfig, pythonRound]
  · norm_num [calculateFanSpeed, defaultConfig, pythonRound]
  · norm_num [calculateFanSpeed, defaultConfig, pythonRound]

/-- Witness for C5 at the default configuration and speed 150. -/
theorem c5_mapper_piecewise_range_witness :
    calculateFanSpeed defaultConfig 150 = 50 :=
  (c5_mapper_piecewise_range defaultConfig 150 (by norm_num [defaultConfig])
    (by norm_num [defaultConfig])).2.2.2.2.2.1

/-- Claim C6 (confirmed): for every configuration satisfying the invariant
and all speeds `s1 ≤ s2` within `[MIN_SPEED_KMH, MAX_SPEED_KMH]`, the
mapper is monotonically non-decreasing. -/
theorem c6_mapper_monotone (cfg : Config) (s1 s2 : ℚ)
    (hspeed : cfg.MIN_SPEED_KMH < cfg.MAX_SPEED_KMH)
    (hfan : cfg.MIN_FAN_SPEED ≤ cfg.MAX_FAN_SPEED)
    (hlo : cfg.MIN_SPEED_KMH ≤ s1) (hhi : s2 ≤ cfg.MAX_SPEED_KMH)
    (h12 : s1 ≤ s2) :
    calculateFanSpeed cfg s1 ≤ calculateFanSpeed cfg s2 :=
  calculateFanSpeed_mono cfg hfan h12

/-- Witness for C6 at the default configuration with speeds 100 ≤ 200. -/
theorem c6_mapper_monotone_witness :
    calculateFanSpeed defaultConfig 100 ≤ calculateFanSpeed defaultConfig 200 :=
  c6_mapper_monotone defaultConfig 100 200 (by norm_num [defaultConfig])
    (by norm_num [defaultConfig]) (by norm_num [defaultConfig])
    (by norm_num [defaultConfig]) (by norm_num)

/-- Claim C7 (confirmed): with `RATE_COMPENSATION = 50`,
`RATE_SMOOTHING = 3`, previous smoothed speed 100, history
`[100, 100, 100]`, a new sample 130 after 0.2 s with base fan speed 33
yields history `[100, 100, 130]`, smoothed speed 110, rate 50, derivative
term 50, raw value 83 clamped by `max 30 16.5 = 30` to 63: the compensator
returns adjusted fan speed 63 and compensation value 30. -/
theorem c7_compensator_worked_example :
    applyRateCompensation ⟨0, 300, 0, 100, 300, 50, 3, true, "192.168.99.100", "fan"⟩
        ⟨100, 0, [100, 100, 100]⟩ (1/5) 130 33 =
      (63, 30, ⟨110, 1/5, [100, 100, 130]⟩) := by
  norm_num [applyRateCompensation, updatedHistory, smoothedSpeed,
    preFinalCompensated, deviationClamp, pythonRound]

/-- Claim C8 (confirmed): for every compensator input with compensation
enabled and `time_delta ≥ 0.01 s`, the computed value before the final
range clamp and rounding deviates from the base fan speed by at most
`max 30 (base * 0.5)`. -/
theorem c8_deviation_clamp_bound (cfg : Config) (st : CompState)
    (now current_speed : ℚ) (base_fan_speed : ℤ)
    (henabled : 0 < cfg.RATE_COMPENSATION)
    (hdelta : 1/100 ≤ now - st.previous_time) :
    |preFinalCompensated cfg st now current_speed base_fan_speed -
        (base_fan_speed : ℚ)| ≤
      max 30 ((base_fan_speed : ℚ) * (1/2)) :=
  deviationClamp_abs_le base_fan_speed _

/-- Witness for C8 at the C7 example input. -/
theorem c8_deviation_clamp_bound_witness :
    |preFinalCompensated
        ⟨0, 300, 0, 100, 300, 50, 3, true, "192.168.99.100", "fan"⟩
        ⟨100, 0, [100, 100, 100]⟩ (1/5) 130 33 - (33 : ℚ)| ≤
      max 30 ((33 : ℚ) * (1/2)) :=
  c8_deviation_clamp_bound
    ⟨0, 300, 0, 100, 300, 50, 3, true, "192.168.99.100", "fan"⟩
    ⟨100, 0, [100, 100, 100]⟩ (1/5) 130 33 (by norm_num) (by norm_num)

/-- Claim C9 (confirmed): when `RATE_COMPENSATION = 0` the per-sample
compensation stage returns the base fan speed unchanged with compensation
value 0, and no field of the compensator state (`previous_speed`,
`previous_time`, `speed_history`) is modified. -/
theorem c9_compensation_off_identity (cfg : Config) (st : CompState)
    (now current_speed : ℚ) (base_fan_speed : ℤ)
    (h : cfg.RATE_COMPENSATION = 0) :
    compensationStage cfg st now current_speed base_fan_speed =
      (base_fan_speed, 0, st) ∧
    (compensationStage cfg st now current_speed base_fan_speed).2.2.previous_speed =
      st.previous_speed ∧
    (compensationStage cfg st now current_speed base_fan_speed).2.2.previous_time =
      st.previous_time ∧
    (compensationStage cfg st now current_speed base_fan_speed).2.2.speed_history =
      st.speed_history := by
  have h0 : ¬ 0 < cfg.RATE_COMPENSATION := by omega
  simp [compensationStage, h0]

/-- Witness for C9 at the default configuration (compensation off). -/
theorem c9_compensation_off_identity_witness :
    compensationStage defaultConfig ⟨7, 3, [5]⟩ 10 80 26 = (26, 0, ⟨7, 3, [5]⟩) :=
  (c9_compensation_off_identity defaultConfig ⟨7, 3, [5]⟩ 10 80 26 rfl).1

/-- Claim C10 (confirmed): the mapper is total even on configurations
violating `MIN_SPEED_KMH < MAX_SPEED_KMH`: when
`MAX_SPEED_KMH ≤ MIN_SPEED_KMH` the two boundary branches cover every
speed, so the interpolation branch containing the division by the speed
range is never taken. -/
theorem c10_mapper_degenerate_config_total (cfg : Config) (speed : ℚ)
    (h : cfg.MAX_SPEED_KMH ≤ cfg.MIN_SPEED_KMH) :
    (speed ≤ cfg.MIN_SPEED_KMH ∨ cfg.MAX_SPEED_KMH ≤ speed) ∧
    calculateFanSpeed cfg speed =
      (if speed ≤ cfg.MIN_SPEED_KMH then cfg.MIN_FAN_SPEED
       else cfg.MAX_FAN_SPEED) := by
  by_cases h1 : speed ≤ cfg.MIN_SPEED_KMH
  · refine ⟨Or.inl h1, ?_⟩
    rw [calculateFanSpeed_low cfg h1, if_pos h1]
  · have h2 : cfg.MAX_SPEED_KMH ≤ speed := le_trans h (le_of_not_le h1)
    refine ⟨Or.inr h2, ?_⟩
    rw [calculateFanSpeed_high cfg h1 h2, if_neg h1]

/-- Witness for C10 on a degenerate configuration with
`MIN_SPEED_KMH = 300 > MAX_SPEED_KMH = 100` at speed 200. -/
theorem c10_mapper_degenerate_config_total_witness :
    ((200 : ℚ) ≤ 300 ∨ (100 : ℚ) ≤ 200) ∧
    calculateFanSpeed ⟨300, 100, 0, 100, 300, 0, 3, true, "192.168.99.100", "fan"⟩ 200 =
      (if (200 : ℚ) ≤ 300 then (0 : ℤ) else 100) :=
  c10_mapper_degenerate_config_total
    ⟨300, 100, 0, 100, 300, 0, 3, true, "192.168.99.100", "fan"⟩ 200 (by norm_num)
